import Mathlib

/-!
Verification of the GistlickApi license registry against its sources
(`src/main.py`, `src/models.py`, `src/dependencies.py`).

The embedding below translates the Python code into Lean:
JSON values become the inductive `Json`; `datetime` values become `DateTime`
records compared through the order-preserving encoding `toKey`;
`datetime.strptime(s, "%Y-%m-%d %H:%M:%S")` becomes `parseDT`, which follows
CPython's `_strptime` regular expressions (a four-digit year, one- or
two-digit month/day/hour/minute/second with the ranges of the `_strptime`
patterns, a literal `-`/`:` for those characters of the format, a nonempty
whitespace run for the blank, a full match, and `datetime`'s own
year/month/day validation); request-body validation mirrors the pydantic
models of `src/models.py`; fallible operations return `Except`.

Operations of the `GistLick` client itself (`create_license`,
`update_license`, `delete_license`, `delete_expired_licenses`) are not part
of the repository's files; where a claim depends on them they are modelled
from the spec and marked `Modelled from the spec:` in their doc comment.
-/

/-- JSON values, the parsed content of a gist document. Objects keep their
fields in order; `json.loads` gives each key once. -/
inductive Json where
  | null : Json
  | bool : Bool → Json
  | num : Int → Json
  | str : String → Json
  | arr : List Json → Json
  | obj : List (String × Json) → Json
deriving Repr

/-- Python truthiness of a JSON value, as used by `if item['expired']:`. -/
def Json.truthy : Json → Bool
  | .null => false
  | .bool b => b
  | .num n => n != 0
  | .str s => s != ""
  | .arr xs => !xs.isEmpty
  | .obj fs => !fs.isEmpty

/-- Field lookup in a parsed JSON object (`item['expired']`, `'expired' in item`). -/
def lookupJ (fs : List (String × Json)) (k : String) : Option Json :=
  match fs with
  | [] => none
  | p :: ps => if p.1 == k then some p.2 else lookupJ ps k

/-- A naive `datetime` value as `datetime.strptime` produces it. -/
structure DateTime where
  year : Nat
  month : Nat
  day : Nat
  hour : Nat
  minute : Nat
  second : Nat
deriving Repr, DecidableEq

/-- Leap years of the proleptic Gregorian calendar, as Python's `calendar.isleap`. -/
def isLeap (y : Nat) : Bool := (y % 4 == 0 && y % 100 != 0) || (y % 400 == 0)

/-- Length of a month, as `datetime` uses to validate the day. -/
def daysInMonth (y m : Nat) : Nat :=
  if m == 2 then (if isLeap y then 29 else 28)
  else if m == 4 || m == 6 || m == 9 || m == 11 then 30
  else 31

/-- Order-preserving encoding of a `datetime`: Python compares naive datetimes
lexicographically by (year, month, day, hour, minute, second), and on values
whose components lie in `datetime`'s ranges that order is exactly the order
of this mixed-radix key. -/
def DateTime.toKey (dt : DateTime) : Nat :=
  ((((dt.year * 13 + dt.month) * 32 + dt.day) * 24 + dt.hour) * 60 + dt.minute) * 60
    + dt.second

/-- The components lie in `datetime`'s ranges, except that the year is allowed
above 9999 (used for intermediate day arithmetic). -/
def WeakValid (dt : DateTime) : Prop :=
  1 ≤ dt.year ∧ 1 ≤ dt.month ∧ dt.month ≤ 12 ∧ 1 ≤ dt.day ∧
    dt.day ≤ daysInMonth dt.year dt.month ∧ dt.hour ≤ 23 ∧ dt.minute ≤ 59 ∧
    dt.second ≤ 59

instance (dt : DateTime) : Decidable (WeakValid dt) := by
  unfold WeakValid; infer_instance

/-- A value `datetime` itself accepts: `MINYEAR ≤ year ≤ MAXYEAR` and every
other component in range. -/
def ValidDT (dt : DateTime) : Prop := WeakValid dt ∧ dt.year ≤ 9999

instance (dt : DateTime) : Decidable (ValidDT dt) := by
  unfold ValidDT; infer_instance

/-- Python whitespace, what `\s` of `_strptime`'s compiled pattern matches
(ASCII part; the claims never involve non-ASCII whitespace). -/
def isWs (c : Char) : Bool :=
  c == ' ' || c == '\t' || c == '\n' || c == '\r' || c == '\x0b' || c == '\x0c'

/-- Value of a run of ASCII digits, most significant first. -/
def digitsVal (ds : List Char) : Nat :=
  ds.foldl (fun a c => a * 10 + (c.toNat - 48)) 0

/-- `%Y` of `_strptime`: exactly four digits. -/
def yearOk (ds : List Char) : Bool := ds.length == 4

/-- `%m` of `_strptime`: `1[0-2]|0[1-9]|[1-9]`, i.e. one digit 1-9 or two
digits with value 1-12. -/
def monthOk (ds : List Char) : Bool :=
  (ds.length == 1 && decide (1 ≤ digitsVal ds)) ||
    (ds.length == 2 && decide (1 ≤ digitsVal ds) && decide (digitsVal ds ≤ 12))

/-- `%d` of `_strptime`: `3[01]|[12]\d|0[1-9]|[1-9]`, i.e. one digit 1-9 or
two digits with value 1-31. -/
def dayOk (ds : List Char) : Bool :=
  (ds.length == 1 && decide (1 ≤ digitsVal ds)) ||
    (ds.length == 2 && decide (1 ≤ digitsVal ds) && decide (digitsVal ds ≤ 31))

/-- `%H` of `_strptime`: `2[0-3]|[0-1]\d|\d`, i.e. any one digit or two digits
with value 0-23. -/
def hourOk (ds : List Char) : Bool :=
  ds.length == 1 || (ds.length == 2 && decide (digitsVal ds ≤ 23))

/-- `%M` and `%S` of `_strptime`: `[0-5]\d|\d`, i.e. any one digit or two
digits with value 0-59. -/
def minSecOk (ds : List Char) : Bool :=
  ds.length == 1 || (ds.length == 2 && decide (digitsVal ds ≤ 59))

/-- One numeric field of the `strptime` pattern: the maximal digit run at the
front of the input, accepted when the field's pattern admits it. Because every
delimiter of the format is a non-digit, CPython's regex backtracking never
splits a digit run across a field boundary, so maximal munch is faithful. -/
def parseField (ok : List Char → Bool) (cs : List Char) : Option (Nat × List Char) :=
  let ds := cs.takeWhile Char.isDigit
  if ok ds then some (digitsVal ds, cs.dropWhile Char.isDigit) else none

/-- The blank of the format, compiled by `_strptime` to `\s+`. -/
def skipWs (cs : List Char) : Option (List Char) :=
  if (cs.takeWhile isWs).isEmpty then none else some (cs.dropWhile isWs)

/-- One expected literal character of the `strptime` format (`-` or `:`). -/
def expectChar (c : Char) : List Char → Option (List Char)
  | x :: r => if x == c then some r else none
  | [] => none

/-- `datetime.strptime(s, "%Y-%m-%d %H:%M:%S")` on the characters of `s`:
the fields in order with their literal separators, nothing left over, and
`datetime`'s own validation of the year and the day of the month. -/
def parseDTChars (cs : List Char) : Option DateTime :=
  (parseField yearOk cs).bind fun p1 =>
  (expectChar '-' p1.2).bind fun r2 =>
  (parseField monthOk r2).bind fun p2 =>
  (expectChar '-' p2.2).bind fun r4 =>
  (parseField dayOk r4).bind fun p3 =>
  (skipWs p3.2).bind fun r6 =>
  (parseField hourOk r6).bind fun p4 =>
  (expectChar ':' p4.2).bind fun r8 =>
  (parseField minSecOk r8).bind fun p5 =>
  (expectChar ':' p5.2).bind fun r10 =>
  (parseField minSecOk r10).bind fun p6 =>
  if p6.2.isEmpty then
    if 1 ≤ p1.1 ∧ p3.1 ≤ daysInMonth p1.1 p2.1 then
      some ⟨p1.1, p2.1, p3.1, p4.1, p5.1, p6.1⟩
    else none
  else none

/-- `datetime.strptime(s, "%Y-%m-%d %H:%M:%S")`: `some` the parsed value, or
`none` when CPython raises `ValueError`. -/
def parseDT (s : String) : Option DateTime := parseDTChars s.data

/-- The character of one decimal digit. -/
def digitChar (n : Nat) : Char := Char.ofNat (48 + n)

/-- A number rendered as exactly two digits, as `strftime` renders `%m`,
`%d`, `%H`, `%M`, `%S`. -/
def pad2 (n : Nat) : List Char := [digitChar (n / 10), digitChar (n % 10)]

/-- A number rendered as exactly four digits, as `strftime` renders `%Y` for
the years at issue. -/
def pad4 (n : Nat) : List Char :=
  [digitChar (n / 1000), digitChar (n / 100 % 10), digitChar (n / 10 % 10),
    digitChar (n % 10)]

/-- The characters of `dt.strftime("%Y-%m-%d %H:%M:%S")`. -/
def fmtChars (dt : DateTime) : List Char :=
  pad4 dt.year ++ '-' :: (pad2 dt.month ++ '-' :: (pad2 dt.day ++ ' ' ::
    (pad2 dt.hour ++ ':' :: (pad2 dt.minute ++ ':' :: pad2 dt.second))))

/-- `dt.strftime("%Y-%m-%d %H:%M:%S")`. -/
def formatDT (dt : DateTime) : String := ⟨fmtChars dt⟩

/-- The calendar day after `dt`, keeping the time of day: the day arithmetic
`datetime + timedelta(days=1)` performs. -/
def nextDay (dt : DateTime) : DateTime :=
  if dt.day < daysInMonth dt.year dt.month then { dt with day := dt.day + 1 }
  else if dt.month < 12 then { dt with month := dt.month + 1, day := 1 }
  else { dt with year := dt.year + 1, month := 1, day := 1 }

/-- `dt + timedelta(days=n)` for a naive `datetime`. -/
def addDays : Nat → DateTime → DateTime
  | 0, dt => dt
  | n + 1, dt => addDays n (nextDay dt)

/-- An HTTP error response: `HTTPException(status_code, detail)` as the
caller receives it. -/
structure HttpError where
  status : Nat
  detail : String
deriving Repr, DecidableEq

deriving instance DecidableEq for Except

/-- `str()` of a starlette `HTTPException`, `"<status>: <detail>"`; this is
what `detail=str(e)` stores when `main.py`'s blanket `except Exception`
re-raises one of the endpoint's own `HTTPException`s. -/
def pyStrHTTP (c : Nat) (d : String) : String := toString c ++ ": " ++ d

/-- The `LicenseResponse` model of `src/models.py`: the stored fields plus
the computed `is_expired`, `gist_id` and `gist_name`. -/
structure LicenseResponse where
  license : String
  user : String
  plan : String
  machine : String
  created : String
  expired : String
  is_expired : Bool
  gist_id : Option String
  gist_name : Option String
deriving Repr, DecidableEq

/-- pydantic v1 coercion into a `str` field: strings pass through, numbers
and booleans are rendered, anything else fails validation. -/
def strCoerce : Json → Option String
  | .str s => some s
  | .bool b => some (if b then "True" else "False")
  | .num n => some (toString n)
  | _ => none

/-- Lines 172-178 of `src/main.py`: the derived expiry flag of one stored
record. `False` unless the item has a truthy `expired` entry that is a string
parsed by `strptime`, in which case it is `datetime.now() > expired_dt`;
a `ValueError` or `TypeError` from `strptime` is swallowed. -/
def isExpiredStatus (now : DateTime) (fs : List (String × Json)) : Bool :=
  match lookupJ fs "expired" with
  | some v =>
    if v.truthy then
      match v with
      | .str s =>
        match parseDT s with
        | some dt => decide (dt.toKey < now.toKey)
        | none => false
      | _ => false
    else false
  | none => false

/-- Lines 180-185 of `src/main.py`: building one `LicenseResponse` from a
stored object via `LicenseResponse(gist_id=..., gist_name=..., is_expired=...,
**item)`. `none` when Python raises: a `TypeError` for a stored key that
collides with an explicitly passed keyword, or a pydantic `ValidationError`
for a missing or uncoercible required field. Extra stored keys are ignored,
as pydantic v1 does by default. -/
def licenseRespOfItem (now : DateTime) (gid gname : String)
    (fs : List (String × Json)) : Option LicenseResponse :=
  if fs.any (fun p => p.1 == "gist_id" || p.1 == "gist_name" || p.1 == "is_expired")
  then none
  else
    ((lookupJ fs "license").bind strCoerce).bind fun lic =>
    ((lookupJ fs "user").bind strCoerce).bind fun u =>
    ((lookupJ fs "plan").bind strCoerce).bind fun pl =>
    ((lookupJ fs "machine").bind strCoerce).bind fun ma =>
    ((lookupJ fs "created").bind strCoerce).bind fun cr =>
    ((lookupJ fs "expired").bind strCoerce).bind fun ex =>
    some ⟨lic, u, pl, ma, cr, ex, isExpiredStatus now fs, some gid, some gname⟩

/-- Stand-in for `str(pydantic.ValidationError)`; the exact text is long and
irrelevant to every claim, which only depend on the resulting status code. -/
def validationErrDetail : String := "validation error for LicenseResponse"

/-- The loop of lines 168-186 of `src/main.py`: non-dict items are skipped,
each dict item is turned into a `LicenseResponse`, and the first item that
raises aborts the whole request, which the blanket handler turns into a 500. -/
def goLicenses (now : DateTime) (gname gid : String) :
    List Json → Except HttpError (List LicenseResponse)
  | [] => .ok []
  | it :: rest =>
    match it with
    | .obj fs =>
      match licenseRespOfItem now gid gname fs with
      | none => .error ⟨500, validationErrDetail⟩
      | some r =>
        match goLicenses now gname gid rest with
        | .ok rs => .ok (r :: rs)
        | .error e => .error e
    | _ => goLicenses now gname gid rest

/-- The detail text of the non-array `HTTPException(400, ...)` of
`src/main.py` line 165. -/
def notAListDetail (gid : String) : String :=
  "Gist \x27" ++ gid ++ "\x27 content is not a list of licenses. Please ensure it\x27s a JSON array."

/-- `list_licenses_in_gist` of `src/main.py` (lines 160-195) applied to the
parsed document content, with the document's display name already fetched.
For non-array content the code raises `HTTPException(400, ...)` inside its
own `try`, so the blanket `except Exception` catches it and re-raises
`HTTPException(500, str(e))`: the caller sees status 500. -/
def list_licenses_in_gist (now : DateTime) (gname gid : String) (content : Json) :
    Except HttpError (List LicenseResponse) :=
  match content with
  | .arr items => goLicenses now gname gid items
  | _ => .error ⟨500, pyStrHTTP 400 (notAListDetail gid)⟩

/-- Python's `str.split()` with no separator: split on runs of whitespace,
dropping empty pieces (ASCII whitespace; the claims never involve other
whitespace). `acc` holds the current word reversed. -/
def splitWsAux : List Char → List Char → List String
  | [], acc => if acc.isEmpty then [] else [String.mk acc.reverse]
  | c :: cs, acc =>
    if isWs c then
      if acc.isEmpty then splitWsAux cs []
      else String.mk acc.reverse :: splitWsAux cs []
    else splitWsAux cs (c :: acc)

/-- `authorization.split()` of `src/dependencies.py` line 25. -/
def pySplit (s : String) : List String := splitWsAux s.data []

/-- ASCII lower-casing of one character, as `str.lower()` acts on the
scheme word of an `Authorization` header. -/
def lowerChar (c : Char) : Char :=
  if 'A' ≤ c && c ≤ 'Z' then Char.ofNat (c.toNat + 32) else c

/-- `parts[0].lower()` of `src/dependencies.py` line 26 (ASCII; scheme
words are ASCII). -/
def lowerStr (s : String) : String := String.mk (s.data.map lowerChar)

/-- What the remote store does with a token: `GistLick(token).user` either
returns the user mapping (whose `id` entry, when present, is `idVal`), or
raises `requests.exceptions.HTTPError`, or raises some other exception. -/
inductive AuthOutcome where
  | userInfo (idVal : Option Json)
  | httpError (status : Nat) (text : String)
  | otherError (msg : String)

def missingAuthDetail : String :=
  "Authorization header missing or invalid. Use Bearer token."

def malformedAuthDetail : String :=
  "Authorization header must be \x27Bearer TOKEN\x27"

/-- FastAPI's response to an exception no handler catches. -/
def internalServerErrorDetail : String := "Internal Server Error"

/-- `get_gistlick_instance` of `src/dependencies.py` (lines 14-53), as a
function of the `Authorization` header and of the remote store's behaviour
on the forwarded token. On success it returns the token the `GistLick`
instance was built from. Every failure raised inside the `try` block — the
function's own `HTTPException(401, "Invalid GitHub token...")` included —
reaches the `except requests.exceptions.HTTPError` clause, and evaluating
that clause raises `NameError` because `src/dependencies.py` never imports
`requests`; the `NameError` escapes the function, so FastAPI answers 500
Internal Server Error. -/
def get_gistlick_instance (authorization : Option String)
    (store : String → AuthOutcome) : Except HttpError String :=
  match authorization with
  | none => .error ⟨401, missingAuthDetail⟩
  | some a =>
    if a == "" then .error ⟨401, missingAuthDetail⟩
    else
      match pySplit a with
      | [scheme, token] =>
        if lowerStr scheme == "bearer" then
          match store token with
          | .userInfo idv =>
            if (match idv with | some v => v.truthy | none => false) then .ok token
            else .error ⟨500, internalServerErrorDetail⟩
          | .httpError _ _ => .error ⟨500, internalServerErrorDetail⟩
          | .otherError _ => .error ⟨500, internalServerErrorDetail⟩
        else .error ⟨401, malformedAuthDetail⟩
      | _ => .error ⟨401, malformedAuthDetail⟩

/-- A failure of a remote call as `main.py`'s handlers see it:
`requests.exceptions.HTTPError` with a response, a `ValueError`, or any
other exception. -/
inductive RemoteFailure where
  | httpError (status : Nat) (text : String)
  | valueError (msg : String)
  | other (msg : String)

/-- The detail text `f"GitHub API error: {status} - {text}"` of `main.py`'s
`HTTPError` handlers. -/
def githubApiDetail (s : Nat) (t : String) : String :=
  "GitHub API error: " ++ toString s ++ " - " ++ t

/-- The detail text of the 404 branch of `main.py`'s gist-scoped handlers. -/
def gistNotFoundDetail (gid : String) : String :=
  "Gist with ID \x27" ++ gid ++ "\x27 not found."

/-- The `except` chain of `list_gists`, `src/main.py` lines 47-53: an
`HTTPError` is forwarded with the remote status and message; anything else
becomes 500 with `str(e)` as the detail. -/
def handleListGistsFailure : RemoteFailure → HttpError
  | .httpError s t => ⟨s, githubApiDetail s t⟩
  | .valueError m => ⟨500, m⟩
  | .other m => ⟨500, m⟩

/-- The `except` chain shared by the gist-scoped endpoints
(`list_licenses_in_gist`, `src/main.py` lines 187-195, and the others of the
same shape): a remote 404 becomes a not-found for the given gist ID, any
other `HTTPError` is forwarded with the remote status and message, anything
else becomes 500 with `str(e)` as the detail. -/
def handleGistScopedFailure (gid : String) : RemoteFailure → HttpError
  | .httpError s t => if s == 404 then ⟨404, gistNotFoundDetail gid⟩
      else ⟨s, githubApiDetail s t⟩
  | .valueError m => ⟨500, m⟩
  | .other m => ⟨500, m⟩

/-- A required pydantic `str` field fed from an optional body entry: absent
or uncoercible fails validation. -/
def reqStr (o : Option Json) : Option String := o.bind strCoerce

/-- A request body for the update endpoint: which of `LicenseUpdate`'s five
fields the JSON body sets, and to what. -/
structure LicenseUpdateBody where
  user : Option Json
  plan : Option Json
  machine : Option Json
  created : Option Json
  expired : Option Json

/-- A body that passed validation against `LicenseUpdate` of
`src/models.py` (lines 43-55): all five inherited fields are required. -/
structure LicenseUpdateData where
  user : String
  plan : String
  machine : String
  created : String
  expired : String
deriving Repr, DecidableEq

/-- pydantic validation of a body against `LicenseUpdate` of
`src/models.py`: every one of `user`, `plan`, `machine`, `created`,
`expired` must be supplied (all are declared required), else FastAPI rejects
the request with a validation error before the endpoint runs. -/
def validateLicenseUpdate (b : LicenseUpdateBody) : Option LicenseUpdateData :=
  (reqStr b.user).bind fun u =>
  (reqStr b.plan).bind fun pl =>
  (reqStr b.machine).bind fun ma =>
  (reqStr b.created).bind fun cr =>
  (reqStr b.expired).bind fun ex =>
  some ⟨u, pl, ma, cr, ex⟩

/-- pydantic v1 coercion into an `int` field. -/
def intCoerce : Json → Option Int
  | .num n => some n
  | .bool b => some (if b then 1 else 0)
  | .str s => s.toInt?
  | _ => none

/-- The `expired_days` field of `LicenseCreate`, `src/models.py` line 52:
`Field(30, gt=0)` — default 30 when absent, and a provided value must be an
integer strictly greater than zero. -/
def daysField (o : Option Json) : Option Int :=
  match o with
  | none => some 30
  | some v => (intCoerce v).bind fun n => if 0 < n then some n else none

/-- A request body for the create endpoint: which fields of `LicenseCreate`
the JSON body sets, and to what. -/
structure LicenseCreateBody where
  user : Option Json
  plan : Option Json
  machine : Option Json
  created : Option Json
  expired : Option Json
  gist_id : Option Json
  expired_days : Option Json

/-- A body that passed validation against `LicenseCreate` of
`src/models.py` (lines 50-52). -/
structure LicenseCreateData where
  user : String
  plan : String
  machine : String
  created : String
  expired : String
  gist_id : String
  expired_days : Int
deriving Repr, DecidableEq

/-- pydantic validation of a body against `LicenseCreate` of
`src/models.py`: `user`, `plan`, `machine`, `created`, `expired` (inherited,
required), `gist_id` (required) and the constrained optional
`expired_days`. -/
def validateLicenseCreate (b : LicenseCreateBody) : Option LicenseCreateData :=
  (reqStr b.user).bind fun u =>
  (reqStr b.plan).bind fun pl =>
  (reqStr b.machine).bind fun ma =>
  (reqStr b.created).bind fun cr =>
  (reqStr b.expired).bind fun ex =>
  (reqStr b.gist_id).bind fun g =>
  (daysField b.expired_days).bind fun d =>
  some ⟨u, pl, ma, cr, ex, g, d⟩

/-- Whether a stored element is the license record with the given key. -/
def isLicenseRec (key : String) : Json → Bool
  | .obj fs =>
    match lookupJ fs "license" with
    | some (.str s) => s == key
    | _ => false
  | _ => false

/-- `item[k] = v` on a parsed JSON object: replace the entry in place, or
append it. -/
def setField (fs : List (String × Json)) (k : String) (v : Json) :
    List (String × Json) :=
  if fs.any (fun p => p.1 == k) then
    fs.map (fun p => if p.1 == k then (k, v) else p)
  else fs ++ [(k, v)]

/-- Merge one explicitly-provided field into a record; an unset field leaves
the record untouched. -/
def mergeField (k : String) (o : Option String) (fs : List (String × Json)) :
    List (String × Json) :=
  match o with
  | some s => setField fs k (.str s)
  | none => fs

/-- Merge the provided update fields into one stored record; every other
entry of the record — `license` included — is left as it was. -/
def mergeLicense (u pl ma cr ex : Option String) : Json → Json
  | .obj fs =>
    .obj (mergeField "expired" ex (mergeField "created" cr (mergeField "machine" ma
      (mergeField "plan" pl (mergeField "user" u fs)))))
  | j => j

/-- Replace the first element satisfying `f` by its image under `g`,
returning the new list and the replaced element's image; `none` when no
element satisfies `f`. -/
def updateFirst (f : Json → Bool) (g : Json → Json) : List Json →
    Option (List Json × Json)
  | [] => none
  | x :: xs =>
    if f x then some (g x :: xs, g x)
    else
      match updateFirst f g xs with
      | some (ys, r) => some (x :: ys, r)
      | none => none

/-- Modelled from the spec: `update_license` of the gistlick client is not
under src/. Spec 4.2: reads the array, locates the element whose `license`
field equals the key; if none found, fails with `NotFoundError` (a
`ValueError` to the caller in `main.py`); otherwise merges only the
explicitly-provided fields into that element, leaves all other elements
untouched, writes the array back, returns the updated record. The first
component of a successful result is the array written back. -/
def update_license (key : String) (u pl ma cr ex : Option String)
    (items : List Json) : Except String (List Json × Json) :=
  match updateFirst (isLicenseRec key) (mergeLicense u pl ma cr ex) items with
  | some r => .ok r
  | none => .error ("License \x27" ++ key ++ "\x27 not found.")

/-- Modelled from the spec: `delete_license` of the gistlick client is not
under src/. Spec 4.2: reads the array, fails with `NotFoundError` (a
`ValueError` to the caller) if no element has the matching key; otherwise
filters it out and writes the reduced array back, which a successful result
carries. -/
def delete_license (key : String) (items : List Json) :
    Except String (List Json) :=
  if items.any (isLicenseRec key) then
    .ok (items.filter (fun it => !isLicenseRec key it))
  else .error ("License \x27" ++ key ++ "\x27 not found.")

/-- `update_license_in_gist` of `src/main.py` (lines 232-263) composed with
request-body validation: a body rejected by `LicenseUpdate` yields FastAPI's
validation error; a `ValueError` from the client (license key not found) is
mapped to 404 by lines 260-261. All five validated fields are forwarded. -/
def update_license_in_gist (key : String) (b : LicenseUpdateBody)
    (items : List Json) : Except HttpError (List Json × Json) :=
  match validateLicenseUpdate b with
  | none => .error ⟨422, "request body failed validation"⟩
  | some v =>
    match update_license key (some v.user) (some v.plan) (some v.machine)
        (some v.created) (some v.expired) items with
    | .ok r => .ok r
    | .error m => .error ⟨404, m⟩

/-- `delete_license_from_gist` of `src/main.py` (lines 266-288): a
`ValueError` from the client (license key not found) is mapped to 404 by
lines 285-286. -/
def delete_license_from_gist (key : String) (items : List Json) :
    Except HttpError (List Json) :=
  match delete_license key items with
  | .ok ys => .ok ys
  | .error m => .error ⟨404, m⟩

/-- Modelled from the spec: `create_license` of the gistlick client is not
under src/. Spec 4.2: computes `created = now()`, `expired = created +
expired_days` (days), generates a key, appends the new record to the array
and writes it back; the first component is the array written back, the
second the created record. -/
def create_license (genKey : String) (now : DateTime) (expired_days : Nat)
    (user plan machine : String) (items : List Json) : List Json × Json :=
  let r : Json := .obj [("license", .str genKey), ("user", .str user),
    ("plan", .str plan), ("machine", .str machine),
    ("created", .str (formatDT now)),
    ("expired", .str (formatDT (addDays expired_days now)))]
  (items ++ [r], r)

/-- `create_license_in_gist` of `src/main.py` (lines 197-230) composed with
request-body validation: the body must validate against `LicenseCreate`,
then only `user`, `plan`, `machine` and `expired_days` of the body are
forwarded — the body's `created`, `expired` and `gist_id` entries are never
read, and the document written is the one named by the path parameter,
returned here as the first component. -/
def create_license_in_gist (genKey : String) (now : DateTime)
    (path_gid : String) (b : LicenseCreateBody) (items : List Json) :
    Except HttpError (String × List Json × Json) :=
  match validateLicenseCreate b with
  | none => .error ⟨422, "request body failed validation"⟩
  | some v =>
    .ok (path_gid,
      create_license genKey now v.expired_days.toNat v.user v.plan v.machine items)

/-- The derived expiry of a stored element, as the spec defines it for every
read: `false` for non-objects and for records whose `expired` is absent,
empty or unparsable. -/
def recordExpired (now : DateTime) : Json → Bool
  | .obj fs => isExpiredStatus now fs
  | _ => false

/-- Modelled from the spec: `delete_expired_licenses` of the gistlick client
is not under src/. Spec 4.2: reads the array; partitions into kept (not
expired, or unparsable/missing `expired`) and removed (parsed `expired`
strictly before now); writes back only the kept set in one write (the first
component); returns the count removed and a human-readable summary. -/
def delete_expired_licenses (now : DateTime) (items : List Json) :
    List Json × Nat × String :=
  let kept := items.filter (fun it => !recordExpired now it)
  let removed := (items.filter (fun it => recordExpired now it)).length
  (kept, removed, "Deleted " ++ toString removed ++ " expired license(s).")

/-- A well-formed stored license record used by concrete instances. -/
def sampleLicRec : Json :=
  .obj [("license", .str "K1"), ("user", .str "alice"), ("plan", .str "trial"),
    ("machine", .str "m1"), ("created", .str "2024-01-01 10:00:00"),
    ("expired", .str "2024-01-31 10:00:00")]

/-- An update request body that sets only `plan`. -/
def onlyPlanBody : LicenseUpdateBody :=
  ⟨none, some (.str "premium"), none, none, none⟩

/-! ### Digit and scanning lemmas -/

theorem digitChar_toNat (n : Nat) (h : n ≤ 9) : (digitChar n).toNat = 48 + n := by
  interval_cases n <;> decide

theorem isDigit_digitChar (n : Nat) (h : n ≤ 9) : (digitChar n).isDigit = true := by
  interval_cases n <;> decide

theorem not_isWs_digitChar (n : Nat) (h : n ≤ 9) : isWs (digitChar n) = false := by
  interval_cases n <;> decide

theorem pad2_digits (n : Nat) (h : n ≤ 99) :
    ∀ x ∈ pad2 n, x.isDigit = true := by
  intro x hx
  simp only [pad2, List.mem_cons, List.mem_singleton, List.not_mem_nil] at hx
  rcases hx with h1 | h1 | h1
  · subst h1; exact isDigit_digitChar _ (by omega)
  · subst h1; exact isDigit_digitChar _ (by omega)
  · cases h1

theorem pad4_digits (n : Nat) (h : n ≤ 9999) :
    ∀ x ∈ pad4 n, x.isDigit = true := by
  intro x hx
  simp only [pad4, List.mem_cons, List.not_mem_nil] at hx
  rcases hx with h1 | h1 | h1 | h1 | h1 <;> first
    | (subst h1; exact isDigit_digitChar _ (by omega))
    | cases h1

theorem digitsVal_pad2 (n : Nat) (h : n ≤ 99) : digitsVal (pad2 n) = n := by
  have h1 := digitChar_toNat (n / 10) (by omega)
  have h2 := digitChar_toNat (n % 10) (by omega)
  simp only [digitsVal, pad2, List.foldl_cons, List.foldl_nil, h1, h2]
  omega

theorem digitsVal_pad4 (n : Nat) (h : n ≤ 9999) : digitsVal (pad4 n) = n := by
  have h1 := digitChar_toNat (n / 1000) (by omega)
  have h2 := digitChar_toNat (n / 100 % 10) (by omega)
  have h3 := digitChar_toNat (n / 10 % 10) (by omega)
  have h4 := digitChar_toNat (n % 10) (by omega)
  simp only [digitsVal, pad4, List.foldl_cons, List.foldl_nil, h1, h2, h3, h4]
  omega

theorem takeWhile_append_not (p : Char → Bool) (l : List Char) (c : Char)
    (r : List Char) (hl : ∀ x ∈ l, p x = true) (hc : p c = false) :
    (l ++ c :: r).takeWhile p = l ∧ (l ++ c :: r).dropWhile p = c :: r := by
  induction l with
  | nil => simp [List.takeWhile, List.dropWhile, hc]
  | cons a as ih =>
    have ha : p a = true := hl a (List.mem_cons_self a as)
    have := ih (fun x hx => hl x (List.mem_cons_of_mem a hx))
    simp [List.takeWhile, List.dropWhile, ha, this.1, this.2]

theorem takeWhile_all (p : Char → Bool) (l : List Char)
    (hl : ∀ x ∈ l, p x = true) :
    l.takeWhile p = l ∧ l.dropWhile p = [] := by
  induction l with
  | nil => simp
  | cons a as ih =>
    have ha : p a = true := hl a (List.mem_cons_self a as)
    have := ih (fun x hx => hl x (List.mem_cons_of_mem a hx))
    simp [List.takeWhile, List.dropWhile, ha, this.1, this.2]

theorem parseField_append (ok : List Char → Bool) (l : List Char) (c : Char)
    (r : List Char) (hl : ∀ x ∈ l, x.isDigit = true) (hc : c.isDigit = false)
    (hok : ok l = true) :
    parseField ok (l ++ c :: r) = some (digitsVal l, c :: r) := by
  obtain ⟨h1, h2⟩ := takeWhile_append_not Char.isDigit l c r hl hc
  simp [parseField, h1, h2, hok]

theorem parseField_all (ok : List Char → Bool) (l : List Char)
    (hl : ∀ x ∈ l, x.isDigit = true) (hok : ok l = true) :
    parseField ok l = some (digitsVal l, ([] : List Char)) := by
  obtain ⟨h1, h2⟩ := takeWhile_all Char.isDigit l hl
  simp [parseField, h1, h2, hok]

theorem expectChar_same (c : Char) (r : List Char) :
    expectChar c (c :: r) = some r := by
  simp [expectChar]

theorem skipWs_space_cons (c : Char) (l : List Char) (hc : isWs c = false) :
    skipWs (' ' :: c :: l) = some (c :: l) := by
  have h1 : isWs ' ' = true := rfl
  simp [skipWs, List.takeWhile, List.dropWhile, h1, hc]

theorem pad2_length (n : Nat) : (pad2 n).length = 2 := rfl

theorem pad4_length (n : Nat) : (pad4 n).length = 4 := rfl

theorem yearOk_pad4 (n : Nat) : yearOk (pad4 n) = true := rfl

theorem monthOk_pad2 (n : Nat) (h1 : 1 ≤ n) (h2 : n ≤ 12) :
    monthOk (pad2 n) = true := by
  simp [monthOk, pad2_length, digitsVal_pad2 n (by omega), h1, h2]

theorem dayOk_pad2 (n : Nat) (h1 : 1 ≤ n) (h2 : n ≤ 31) :
    dayOk (pad2 n) = true := by
  simp [dayOk, pad2_length, digitsVal_pad2 n (by omega), h1, h2]

theorem hourOk_pad2 (n : Nat) (h : n ≤ 23) : hourOk (pad2 n) = true := by
  simp [hourOk, pad2_length, digitsVal_pad2 n (by omega), h]

theorem minSecOk_pad2 (n : Nat) (h : n ≤ 59) : minSecOk (pad2 n) = true := by
  simp [minSecOk, pad2_length, digitsVal_pad2 n (by omega), h]

/-! ### Calendar arithmetic lemmas -/

theorem daysInMonth_bounds (y m : Nat) :
    28 ≤ daysInMonth y m ∧ daysInMonth y m ≤ 31 := by
  unfold daysInMonth
  split_ifs <;> omega

theorem toKey_lt_nextDay (dt : DateTime) (h : WeakValid dt) :
    dt.toKey < (nextDay dt).toKey := by
  obtain ⟨h1, h2, h3, h4, h5, h6, h7, h8⟩ := h
  have hb := daysInMonth_bounds dt.year dt.month
  unfold nextDay DateTime.toKey
  split_ifs with hA hB <;> dsimp <;> omega

theorem weakValid_nextDay (dt : DateTime) (h : WeakValid dt) :
    WeakValid (nextDay dt) := by
  obtain ⟨h1, h2, h3, h4, h5, h6, h7, h8⟩ := h
  have hb1 := daysInMonth_bounds dt.year (dt.month + 1)
  have hb2 := daysInMonth_bounds (dt.year + 1) 1
  unfold nextDay
  split_ifs with hA hB <;> unfold WeakValid <;> dsimp <;>
    exact ⟨by omega, by omega, by omega, by omega, by omega, h6, h7, h8⟩

theorem weakValid_addDays (n : Nat) (dt : DateTime) (h : WeakValid dt) :
    WeakValid (addDays n dt) := by
  induction n generalizing dt with
  | zero => exact h
  | succ k ih => exact ih (nextDay dt) (weakValid_nextDay dt h)

theorem toKey_le_addDays (n : Nat) (dt : DateTime) (h : WeakValid dt) :
    dt.toKey ≤ (addDays n dt).toKey := by
  induction n generalizing dt with
  | zero => exact Nat.le_refl _
  | succ k ih =>
    have h1 := toKey_lt_nextDay dt h
    have h2 := ih (nextDay dt) (weakValid_nextDay dt h)
    exact Nat.le_trans (Nat.le_of_lt h1) h2

theorem toKey_lt_addDays (n : Nat) (dt : DateTime) (h : WeakValid dt)
    (hn : 0 < n) : dt.toKey < (addDays n dt).toKey := by
  cases n with
  | zero => cases hn
  | succ k =>
    have h1 := toKey_lt_nextDay dt h
    have h2 := toKey_le_addDays k (nextDay dt) (weakValid_nextDay dt h)
    exact Nat.lt_of_lt_of_le h1 h2

/-! ### The format/parse round trip -/

theorem parseDT_formatDT (dt : DateTime) (h : ValidDT dt) :
    parseDT (formatDT dt) = some dt := by
  obtain ⟨⟨hy1, hm1, hm2, hd1, hd2, hh, hmi, hs⟩, hy2⟩ := h
  have hdm := daysInMonth_bounds dt.year dt.month
  have hY : parseField yearOk
      (pad4 dt.year ++ '-' :: (pad2 dt.month ++ '-' :: (pad2 dt.day ++ ' ' ::
        (pad2 dt.hour ++ ':' :: (pad2 dt.minute ++ ':' :: pad2 dt.second)))))
      = some (dt.year, '-' :: (pad2 dt.month ++ '-' :: (pad2 dt.day ++ ' ' ::
        (pad2 dt.hour ++ ':' :: (pad2 dt.minute ++ ':' :: pad2 dt.second))))) := by
    rw [parseField_append yearOk _ _ _ (pad4_digits dt.year hy2) (by decide)
      (yearOk_pad4 dt.year), digitsVal_pad4 dt.year hy2]
  have hM : parseField monthOk
      (pad2 dt.month ++ '-' :: (pad2 dt.day ++ ' ' ::
        (pad2 dt.hour ++ ':' :: (pad2 dt.minute ++ ':' :: pad2 dt.second))))
      = some (dt.month, '-' :: (pad2 dt.day ++ ' ' ::
        (pad2 dt.hour ++ ':' :: (pad2 dt.minute ++ ':' :: pad2 dt.second)))) := by
    rw [parseField_append monthOk _ _ _ (pad2_digits dt.month (by omega)) (by decide)
      (monthOk_pad2 dt.month hm1 hm2), digitsVal_pad2 dt.month (by omega)]
  have hD : parseField dayOk
      (pad2 dt.day ++ ' ' :: (pad2 dt.hour ++ ':' :: (pad2 dt.minute ++ ':' :: pad2 dt.second)))
      = some (dt.day, ' ' :: (pad2 dt.hour ++ ':' :: (pad2 dt.minute ++ ':' :: pad2 dt.second))) := by
    rw [parseField_append dayOk _ _ _ (pad2_digits dt.day (by omega)) (by decide)
      (dayOk_pad2 dt.day hd1 (by omega)), digitsVal_pad2 dt.day (by omega)]
  have hW : skipWs (' ' :: (pad2 dt.hour ++ ':' :: (pad2 dt.minute ++ ':' :: pad2 dt.second)))
      = some (pad2 dt.hour ++ ':' :: (pad2 dt.minute ++ ':' :: pad2 dt.second)) := by
    have hrw : pad2 dt.hour ++ ':' :: (pad2 dt.minute ++ ':' :: pad2 dt.second)
        = digitChar (dt.hour / 10) :: (digitChar (dt.hour % 10) ::
          (':' :: (pad2 dt.minute ++ ':' :: pad2 dt.second))) := rfl
    rw [hrw]
    exact skipWs_space_cons _ _ (not_isWs_digitChar _ (by omega))
  have hH : parseField hourOk
      (pad2 dt.hour ++ ':' :: (pad2 dt.minute ++ ':' :: pad2 dt.second))
      = some (dt.hour, ':' :: (pad2 dt.minute ++ ':' :: pad2 dt.second)) := by
    rw [parseField_append hourOk _ _ _ (pad2_digits dt.hour (by omega)) (by decide)
      (hourOk_pad2 dt.hour hh), digitsVal_pad2 dt.hour (by omega)]
  have hMi : parseField minSecOk (pad2 dt.minute ++ ':' :: pad2 dt.second)
      = some (dt.minute, ':' :: pad2 dt.second) := by
    rw [parseField_append minSecOk _ _ _ (pad2_digits dt.minute (by omega)) (by decide)
      (minSecOk_pad2 dt.minute hmi), digitsVal_pad2 dt.minute (by omega)]
  have hS : parseField minSecOk (pad2 dt.second)
      = some (dt.second, ([] : List Char)) := by
    rw [parseField_all minSecOk _ (pad2_digits dt.second (by omega))
      (minSecOk_pad2 dt.second hs), digitsVal_pad2 dt.second (by omega)]
  show parseDTChars (fmtChars dt) = some dt
  rw [show fmtChars dt = pad4 dt.year ++ '-' :: (pad2 dt.month ++ '-' ::
    (pad2 dt.day ++ ' ' :: (pad2 dt.hour ++ ':' :: (pad2 dt.minute ++ ':' ::
      pad2 dt.second)))) from rfl]
  rw [parseDTChars, hY]
  simp only [Option.some_bind]
  rw [expectChar_same, Option.some_bind, hM, Option.some_bind,
    expectChar_same, Option.some_bind, hD, Option.some_bind, hW,
    Option.some_bind, hH, Option.some_bind, expectChar_same, Option.some_bind,
    hMi, Option.some_bind, expectChar_same, Option.some_bind, hS,
    Option.some_bind]
  simp only [List.isEmpty_nil, if_true]
  rw [if_pos ⟨hy1, hd2⟩]

/-! ### The derived expiry flag -/

/-- Characterization of the read-time expiry flag of `src/main.py` lines
172-178: true exactly for a truthy string `expired` entry that `strptime`
parses to a datetime strictly before `now`. -/
theorem isExpiredStatus_iff (now : DateTime) (fs : List (String × Json)) :
    isExpiredStatus now fs = true ↔
      ∃ s dt, lookupJ fs "expired" = some (.str s) ∧ s ≠ "" ∧
        parseDT s = some dt ∧ dt.toKey < now.toKey := by
  unfold isExpiredStatus
  cases hl : lookupJ fs "expired" with
  | none => simp
  | some v =>
    cases v with
    | str s =>
      by_cases hs : s = ""
      · subst hs; simp [Json.truthy]
      · have ht : Json.truthy (.str s) = true := by simp [Json.truthy, hs]
        dsimp only
        rw [if_pos ht]
        show (match parseDT s with
          | some dt => decide (dt.toKey < now.toKey)
          | none => false) = true ↔ _
        cases hp : parseDT s with
        | none =>
          constructor
          · intro h; cases h
          · rintro ⟨s', dt', hS, hs', hp', hlt'⟩
            injection hS with hS1
            injection hS1 with hS2
            subst hS2
            rw [hp] at hp'; cases hp'
        | some dt =>
          simp only [decide_eq_true_eq]
          constructor
          · intro h; exact ⟨s, dt, rfl, hs, hp, h⟩
          · rintro ⟨s', dt', hS, hs', hp', hlt'⟩
            injection hS with hS1
            injection hS1 with hS2
            subst hS2
            rw [hp] at hp'
            injection hp' with hp2
            subst hp2
            exact hlt'
    | null => simp [Json.truthy]
    | bool b => simp [Json.truthy]
    | num n => simp [Json.truthy]
    | arr xs => simp [Json.truthy]
    | obj gs => simp [Json.truthy]

/-- The derived expiry of a whole stored element: non-objects are never
expired, objects follow `isExpiredStatus`. -/
theorem recordExpired_iff (now : DateTime) (it : Json) :
    recordExpired now it = true ↔
      ∃ fs s dt, it = .obj fs ∧ lookupJ fs "expired" = some (.str s) ∧ s ≠ "" ∧
        parseDT s = some dt ∧ dt.toKey < now.toKey := by
  cases it with
  | obj fs =>
    rw [show recordExpired now (.obj fs) = isExpiredStatus now fs from rfl,
      isExpiredStatus_iff]
    constructor
    · rintro ⟨s, dt, h1, h2, h3, h4⟩
      exact ⟨fs, s, dt, rfl, h1, h2, h3, h4⟩
    · rintro ⟨fs', s, dt, heq, h1, h2, h3, h4⟩
      injection heq with h5
      subst h5
      exact ⟨s, dt, h1, h2, h3, h4⟩
  | null => simp [recordExpired]
  | bool b => simp [recordExpired]
  | num n => simp [recordExpired]
  | str s => simp [recordExpired]
  | arr xs => simp [recordExpired]

/-! ### The claims -/

/-- C2: for every record read by List, `is_expired` is true exactly when the
current time is strictly greater than the parsed `expired` timestamp
(format YYYY-MM-DD HH:MM:SS); when the `expired` entry is absent, empty, a
non-string, or unparsable, it is false and no error is raised (the
computation is total). -/
theorem claim_C2 (now : DateTime) (fs : List (String × Json)) :
    (isExpiredStatus now fs = true ↔
      ∃ s dt, lookupJ fs "expired" = some (.str s) ∧ s ≠ "" ∧
        parseDT s = some dt ∧ dt.toKey < now.toKey) ∧
    (lookupJ fs "expired" = none → isExpiredStatus now fs = false) ∧
    (lookupJ fs "expired" = some (.str "") → isExpiredStatus now fs = false) ∧
    (∀ s, lookupJ fs "expired" = some (.str s) → parseDT s = none →
      isExpiredStatus now fs = false) := by
  refine ⟨isExpiredStatus_iff now fs, ?_, ?_, ?_⟩
  · intro h
    cases hb : isExpiredStatus now fs
    · rfl
    · obtain ⟨s, dt, h1, _, _, _⟩ := (isExpiredStatus_iff now fs).mp hb
      rw [h] at h1; cases h1
  · intro h
    cases hb : isExpiredStatus now fs
    · rfl
    · obtain ⟨s, dt, h1, h2, _, _⟩ := (isExpiredStatus_iff now fs).mp hb
      rw [h] at h1
      injection h1 with h3
      injection h3 with h4
      exact absurd h4.symm h2
  · intro s h hp
    cases hb : isExpiredStatus now fs
    · rfl
    · obtain ⟨s', dt, h1, _, h3, _⟩ := (isExpiredStatus_iff now fs).mp hb
      rw [h] at h1
      injection h1 with h4
      injection h4 with h5
      subst h5
      rw [hp] at h3; cases h3

/-- C1 at concrete inputs: on a document whose content is a JSON object
(not an array) the List operation answers 500 — its own
`HTTPException(400, ...)` is caught by the blanket `except Exception` of
lines 194-195 and re-raised as a 500 whose detail is the `str()` of the 400
— where the claim says it fails with a bad request; on an array document it
returns, in order, one response per object element with the stored fields,
the computed `is_expired`, the `gist_id` and the display name, skipping
non-object elements silently. -/
theorem claim_C1 :
    list_licenses_in_gist ⟨2024, 5, 5, 12, 0, 0⟩ "data.json" "g1" (.obj []) =
      .error ⟨500, pyStrHTTP 400 (notAListDetail "g1")⟩ ∧
    list_licenses_in_gist ⟨2024, 5, 5, 12, 0, 0⟩ "data.json" "g1"
        (.arr [.str "junk", sampleLicRec, .num 7]) =
      .ok [⟨"K1", "alice", "trial", "m1", "2024-01-01 10:00:00",
        "2024-01-31 10:00:00", true, some "g1", some "data.json"⟩] :=
  ⟨rfl, rfl⟩

/-- C4 (spec-modelled): DeleteExpired writes back, in one write, exactly the
records that are not expired at the call's timestamp — an element is removed
exactly when it is an object whose `expired` entry is a nonempty string that
parses and lies strictly before `now`; elements with missing or unparsable
`expired` are retained — and returns the count of removed records with a
human-readable summary naming that count. -/
theorem claim_C4 (now : DateTime) (items : List Json) :
    (delete_expired_licenses now items).1 =
      items.filter (fun it => !recordExpired now it) ∧
    (delete_expired_licenses now items).2.1 =
      (items.filter (fun it => recordExpired now it)).length ∧
    (delete_expired_licenses now items).2.2 =
      "Deleted " ++
        toString (items.filter (fun it => recordExpired now it)).length ++
        " expired license(s)." ∧
    (∀ it, recordExpired now it = true ↔
      ∃ fs s dt, it = .obj fs ∧ lookupJ fs "expired" = some (.str s) ∧ s ≠ "" ∧
        parseDT s = some dt ∧ dt.toKey < now.toKey) := by
  exact ⟨rfl, rfl, rfl, fun it => recordExpired_iff now it⟩

/-- C8: a failure reported by the remote store is surfaced with the remote
status code and message, a remote 404 becomes a not-found naming the gist
ID, and an uncategorized failure becomes a 500 whose detail is exactly the
failure's message text — nothing is swallowed into a success. -/
theorem claim_C8 (gid : String) (s : Nat) (t m : String) :
    handleListGistsFailure (.httpError s t) = ⟨s, githubApiDetail s t⟩ ∧
    handleListGistsFailure (.other m) = ⟨500, m⟩ ∧
    handleGistScopedFailure gid (.httpError 404 t) =
      ⟨404, gistNotFoundDetail gid⟩ ∧
    (s ≠ 404 → handleGistScopedFailure gid (.httpError s t) =
      ⟨s, githubApiDetail s t⟩) ∧
    handleGistScopedFailure gid (.valueError m) = ⟨500, m⟩ ∧
    handleGistScopedFailure gid (.other m) = ⟨500, m⟩ := by
  refine ⟨rfl, rfl, rfl, ?_, rfl, rfl⟩
  intro h
  simp [handleGistScopedFailure, h]

/-- C5 at concrete inputs: a missing header and a header that does not split
into exactly two whitespace-separated parts with first part `bearer`
(case-insensitively) are refused with 401, and for a well-formed header the
second part is forwarded verbatim as the token; but a token the remote store
rejects — whether the store's call raises `HTTPError` or returns user data
without an `id` — is surfaced as 500, not as unauthorized: the code's own
`HTTPException(401, "Invalid GitHub token...")` and its `HTTPError` handler
both sit behind an `except requests.exceptions.HTTPError` clause that raises
`NameError` (`src/dependencies.py` never imports `requests`), and the
blanket `except Exception` path likewise only reaches a 500. -/
theorem claim_C5 :
    get_gistlick_instance none (fun _ => .userInfo (some (.num 1))) =
      .error ⟨401, missingAuthDetail⟩ ∧
    get_gistlick_instance (some "") (fun _ => .userInfo (some (.num 1))) =
      .error ⟨401, missingAuthDetail⟩ ∧
    get_gistlick_instance (some "Token abc") (fun _ => .userInfo (some (.num 1))) =
      .error ⟨401, malformedAuthDetail⟩ ∧
    get_gistlick_instance (some "Bearer a b") (fun _ => .userInfo (some (.num 1))) =
      .error ⟨401, malformedAuthDetail⟩ ∧
    get_gistlick_instance (some "Bearer") (fun _ => .userInfo (some (.num 1))) =
      .error ⟨401, malformedAuthDetail⟩ ∧
    get_gistlick_instance (some "Bearer goodtoken")
        (fun _ => .userInfo (some (.num 1))) = .ok "goodtoken" ∧
    get_gistlick_instance (some "bEaReR tok")
        (fun _ => .userInfo (some (.num 1))) = .ok "tok" ∧
    get_gistlick_instance (some "Bearer badtoken")
        (fun _ => .httpError 401 "Bad credentials") =
      .error ⟨500, internalServerErrorDetail⟩ ∧
    get_gistlick_instance (some "Bearer badtoken") (fun _ => .userInfo none) =
      .error ⟨500, internalServerErrorDetail⟩ :=
  ⟨by decide, by decide, by decide, by decide, by decide, by decide, by decide,
    by decide, by decide⟩

/-- An update pass over a list none of whose elements is selected finds
nothing. -/
theorem updateFirst_eq_none (f : Json → Bool) (g : Json → Json)
    (items : List Json) (h : ∀ it ∈ items, f it = false) :
    updateFirst f g items = none := by
  induction items with
  | nil => rfl
  | cons x xs ih =>
    have hx : f x = false := h x (List.mem_cons_self x xs)
    have hxs := ih (fun it hit => h it (List.mem_cons_of_mem x hit))
    simp [updateFirst, hx, hxs]

/-- C6: when no element of the document has a `license` entry equal to the
given key, both the single-record Delete and the single-record Update fail
with a 404 not-found (the client's `ValueError` mapped by `src/main.py`
lines 260-261 and 285-286), and neither produces a written document — in
particular deleting an absent key fails rather than succeeding
idempotently. -/
theorem claim_C6 (key : String) (items : List Json) (b : LicenseUpdateBody)
    (v : LicenseUpdateData) (hb : validateLicenseUpdate b = some v)
    (h : ∀ it ∈ items, isLicenseRec key it = false) :
    delete_license_from_gist key items =
      .error ⟨404, "License \x27" ++ key ++ "\x27 not found."⟩ ∧
    update_license_in_gist key b items =
      .error ⟨404, "License \x27" ++ key ++ "\x27 not found."⟩ := by
  have hany : items.any (isLicenseRec key) = false := by
    rw [List.any_eq_false]
    intro it hit
    simp [h it hit]
  constructor
  · simp [delete_license_from_gist, delete_license, hany]
  · simp [update_license_in_gist, hb, update_license,
      updateFirst_eq_none (isLicenseRec key) _ items h]

/-- C6 at a concrete input: the store holds only the record `K1`, and both
Delete and Update of the absent key `K9` answer 404. -/
theorem claim_C6_witness :
    delete_license_from_gist "K9" [sampleLicRec] =
      .error ⟨404, "License \x27" ++ "K9" ++ "\x27 not found."⟩ ∧
    update_license_in_gist "K9"
        ⟨some (.str "u"), some (.str "p"), some (.str "m"),
          some (.str "2024-01-01 10:00:00"), some (.str "2024-01-31 10:00:00")⟩
        [sampleLicRec] =
      .error ⟨404, "License \x27" ++ "K9" ++ "\x27 not found."⟩ :=
  claim_C6 "K9" [sampleLicRec]
    ⟨some (.str "u"), some (.str "p"), some (.str "m"),
      some (.str "2024-01-01 10:00:00"), some (.str "2024-01-31 10:00:00")⟩
    ⟨"u", "p", "m", "2024-01-01 10:00:00", "2024-01-31 10:00:00"⟩ rfl
    (by decide)

/-- Replacing the entry at `k` in place changes lookups at no other key. -/
theorem lookupJ_map_set_ne (fs : List (String × Json)) (k k' : String)
    (v : Json) (h : (k == k') = false) :
    lookupJ (fs.map (fun p => if p.1 == k then (k, v) else p)) k' =
      lookupJ fs k' := by
  induction fs with
  | nil => rfl
  | cons p ps ih =>
    by_cases hp : (p.1 == k) = true
    · have hp1 : p.1 = k := by simpa using hp
      simp [lookupJ, hp, h, hp1]
      simpa using ih
    · have hp' : (p.1 == k) = false := by simpa using hp
      by_cases hq : (p.1 == k') = true
      · simp [lookupJ, hp', hq]
      · have hq' : (p.1 == k') = false := by simpa using hq
        simp [lookupJ, hp', hq']
        simpa using ih

/-- Replacing the entry at `k` in place, looked up at `k` itself, when some
entry carries that key. -/
theorem lookupJ_map_set_same (fs : List (String × Json)) (k : String)
    (v : Json) (hany : fs.any (fun p => p.1 == k) = true) :
    lookupJ (fs.map (fun p => if p.1 == k then (k, v) else p)) k = some v := by
  induction fs with
  | nil => cases hany
  | cons p ps ih =>
    by_cases hp : (p.1 == k) = true
    · simp [lookupJ, hp]
    · have hp' : (p.1 == k) = false := by simpa using hp
      rw [List.any_cons, hp', Bool.false_or] at hany
      simp [lookupJ, hp']
      simpa using ih hany

/-- Lookup scans an appended record left to right. -/
theorem lookupJ_append (fs gs : List (String × Json)) (k : String) :
    lookupJ (fs ++ gs) k =
      match lookupJ fs k with
      | some v => some v
      | none => lookupJ gs k := by
  induction fs with
  | nil => rfl
  | cons p ps ih =>
    by_cases hp : (p.1 == k) = true
    · simp [lookupJ, hp]
    · have hp' : (p.1 == k) = false := by simpa using hp
      simp [lookupJ, hp']
      simpa using ih

/-- A record none of whose keys is `k` has no value at `k`. -/
theorem lookupJ_eq_none_of_not_any (fs : List (String × Json)) (k : String)
    (h : fs.any (fun p => p.1 == k) = false) : lookupJ fs k = none := by
  induction fs with
  | nil => rfl
  | cons p ps ih =>
    rw [List.any_cons] at h
    have h1 := Bool.or_eq_false_iff.mp h
    simp [lookupJ, h1.1, ih h1.2]

/-- `item[k] = v` leaves every other key's value untouched. -/
theorem lookupJ_setField_ne (fs : List (String × Json)) (k k' : String)
    (v : Json) (h : (k == k') = false) :
    lookupJ (setField fs k v) k' = lookupJ fs k' := by
  unfold setField
  split_ifs with hany
  · exact lookupJ_map_set_ne fs k k' v h
  · rw [lookupJ_append]
    cases hf : lookupJ fs k' with
    | some w => rfl
    | none => simp [lookupJ, h]

/-- `item[k] = v` makes the value at `k` equal to `v`. -/
theorem lookupJ_setField_same (fs : List (String × Json)) (k : String)
    (v : Json) : lookupJ (setField fs k v) k = some v := by
  unfold setField
  split_ifs with hany
  · exact lookupJ_map_set_same fs k v hany
  · rw [lookupJ_append,
      lookupJ_eq_none_of_not_any fs k (Bool.of_not_eq_true hany)]
    simp [lookupJ]

/-- Merging a provided field changes no other key. -/
theorem lookupJ_mergeField_ne (k : String) (o : Option String)
    (fs : List (String × Json)) (k' : String) (h : (k == k') = false) :
    lookupJ (mergeField k o fs) k' = lookupJ fs k' := by
  cases o with
  | none => rfl
  | some s => exact lookupJ_setField_ne fs k k' (.str s) h

/-- Merging a provided field stores exactly that value at its key. -/
theorem lookupJ_mergeField_same (k : String) (s : String)
    (fs : List (String × Json)) :
    lookupJ (mergeField k (some s) fs) k = some (.str s) :=
  lookupJ_setField_same fs k (.str s)

/-- Locating and replacing the first matching element touches nothing before
or after it. -/
theorem updateFirst_append (f : Json → Bool) (g : Json → Json)
    (pre : List Json) (x : Json) (post : List Json)
    (hpre : ∀ it ∈ pre, f it = false) (hx : f x = true) :
    updateFirst f g (pre ++ x :: post) = some (pre ++ g x :: post, g x) := by
  induction pre with
  | nil => simp [updateFirst, hx]
  | cons a as ih =>
    have ha : f a = false := hpre a (List.mem_cons_self a as)
    have has := ih (fun it hit => hpre it (List.mem_cons_of_mem a hit))
    simp [updateFirst, ha, has]

/-- C3 counterexample: an Update request that sets only `plan` never reaches
the stored record — `LicenseUpdate` of `src/models.py` inherits all five
fields as required, so the body is rejected with a validation error and no
update is performed, against the claim's description of such a request
updating the target record. -/
theorem claim_C3_counterexample :
    update_license_in_gist "K1" onlyPlanBody [sampleLicRec] =
      .error ⟨422, "request body failed validation"⟩ := rfl

/-- C3 (amended): the public Update interface requires all of `user`,
`plan`, `machine`, `created`, `expired` — a body leaving `user` (or any
other field) unset is rejected by validation, so an update carrying only
`plan` never runs; for an accepted request all five provided values
overwrite the target record's fields, the target's `license` key and every
record before and after it are byte-identical to before, and the write-back
is the input list with only the target element replaced. -/
theorem claim_C3 (key : String) (b : LicenseUpdateBody)
    (v : LicenseUpdateData) (pre post : List Json)
    (fs : List (String × Json)) (hb : validateLicenseUpdate b = some v)
    (hpre : ∀ it ∈ pre, isLicenseRec key it = false)
    (htgt : isLicenseRec key (.obj fs) = true) :
    (∀ b' : LicenseUpdateBody, b'.user = none →
      validateLicenseUpdate b' = none) ∧
    ∃ gs, update_license_in_gist key b (pre ++ .obj fs :: post) =
        .ok (pre ++ .obj gs :: post, .obj gs) ∧
      lookupJ gs "license" = lookupJ fs "license" ∧
      lookupJ gs "user" = some (.str v.user) ∧
      lookupJ gs "plan" = some (.str v.plan) ∧
      lookupJ gs "machine" = some (.str v.machine) ∧
      lookupJ gs "created" = some (.str v.created) ∧
      lookupJ gs "expired" = some (.str v.expired) := by
  constructor
  · intro b' hn
    simp [validateLicenseUpdate, reqStr, hn]
  · refine ⟨mergeField "expired" (some v.expired) (mergeField "created"
      (some v.created) (mergeField "machine" (some v.machine)
        (mergeField "plan" (some v.plan)
          (mergeField "user" (some v.user) fs)))), ?_, ?_, ?_, ?_, ?_, ?_, ?_⟩
    · have hupd := updateFirst_append (isLicenseRec key)
        (mergeLicense (some v.user) (some v.plan) (some v.machine)
          (some v.created) (some v.expired)) pre (.obj fs) post hpre htgt
      simp [update_license_in_gist, hb, update_license, hupd, mergeLicense]
    · rw [lookupJ_mergeField_ne _ _ _ _ (by decide),
        lookupJ_mergeField_ne _ _ _ _ (by decide),
        lookupJ_mergeField_ne _ _ _ _ (by decide),
        lookupJ_mergeField_ne _ _ _ _ (by decide),
        lookupJ_mergeField_ne _ _ _ _ (by decide)]
    · rw [lookupJ_mergeField_ne _ _ _ _ (by decide),
        lookupJ_mergeField_ne _ _ _ _ (by decide),
        lookupJ_mergeField_ne _ _ _ _ (by decide),
        lookupJ_mergeField_ne _ _ _ _ (by decide)]
      exact lookupJ_mergeField_same _ _ _
    · rw [lookupJ_mergeField_ne _ _ _ _ (by decide),
        lookupJ_mergeField_ne _ _ _ _ (by decide),
        lookupJ_mergeField_ne _ _ _ _ (by decide)]
      exact lookupJ_mergeField_same _ _ _
    · rw [lookupJ_mergeField_ne _ _ _ _ (by decide),
        lookupJ_mergeField_ne _ _ _ _ (by decide)]
      exact lookupJ_mergeField_same _ _ _
    · rw [lookupJ_mergeField_ne _ _ _ _ (by decide)]
      exact lookupJ_mergeField_same _ _ _
    · exact lookupJ_mergeField_same _ _ _

/-- C3 (amended) at a concrete input: a full update body aimed at `K1` in a
two-element document replaces only the target's five fields, keeps its
`license` key and leaves the other element in place. -/
theorem claim_C3_witness :
    (∀ b' : LicenseUpdateBody, b'.user = none →
      validateLicenseUpdate b' = none) ∧
    ∃ gs, update_license_in_gist "K1"
        ⟨some (.str "u2"), some (.str "premium"), some (.str "m2"),
          some (.str "2024-02-01 00:00:00"), some (.str "2024-03-01 00:00:00")⟩
        ([Json.num 1] ++ .obj [("license", .str "K1"), ("note", .str "x")] :: []) =
        .ok ([Json.num 1] ++ .obj gs :: [], .obj gs) ∧
      lookupJ gs "license" =
        lookupJ [("license", .str "K1"), ("note", .str "x")] "license" ∧
      lookupJ gs "user" = some (.str "u2") ∧
      lookupJ gs "plan" = some (.str "premium") ∧
      lookupJ gs "machine" = some (.str "m2") ∧
      lookupJ gs "created" = some (.str "2024-02-01 00:00:00") ∧
      lookupJ gs "expired" = some (.str "2024-03-01 00:00:00") :=
  claim_C3 "K1"
    ⟨some (.str "u2"), some (.str "premium"), some (.str "m2"),
      some (.str "2024-02-01 00:00:00"), some (.str "2024-03-01 00:00:00")⟩
    ⟨"u2", "premium", "m2", "2024-02-01 00:00:00", "2024-03-01 00:00:00"⟩
    [Json.num 1] [] [("license", .str "K1"), ("note", .str "x")]
    rfl (by decide) (by decide)

/-- A body accepted by `LicenseCreate` validation decomposes into accepted
values for every field of the model. -/
theorem validateLicenseCreate_parts (b : LicenseCreateBody)
    (v : LicenseCreateData) (h : validateLicenseCreate b = some v) :
    reqStr b.user = some v.user ∧ reqStr b.plan = some v.plan ∧
    reqStr b.machine = some v.machine ∧ reqStr b.created = some v.created ∧
    reqStr b.expired = some v.expired ∧ reqStr b.gist_id = some v.gist_id ∧
    daysField b.expired_days = some v.expired_days := by
  unfold validateLicenseCreate at h
  cases hu : reqStr b.user with
  | none => rw [hu, Option.none_bind] at h; cases h
  | some u =>
    rw [hu, Option.some_bind] at h
    cases hp : reqStr b.plan with
    | none => rw [hp, Option.none_bind] at h; cases h
    | some pl =>
      rw [hp, Option.some_bind] at h
      cases hm : reqStr b.machine with
      | none => rw [hm, Option.none_bind] at h; cases h
      | some ma =>
        rw [hm, Option.some_bind] at h
        cases hc : reqStr b.created with
        | none => rw [hc, Option.none_bind] at h; cases h
        | some cr =>
          rw [hc, Option.some_bind] at h
          cases he : reqStr b.expired with
          | none => rw [he, Option.none_bind] at h; cases h
          | some ex =>
            rw [he, Option.some_bind] at h
            cases hg : reqStr b.gist_id with
            | none => rw [hg, Option.none_bind] at h; cases h
            | some g =>
              rw [hg, Option.some_bind] at h
              cases hd : daysField b.expired_days with
              | none => rw [hd, Option.none_bind] at h; cases h
              | some dd =>
                rw [hd, Option.some_bind] at h
                injection h with h1
                subst h1
                exact ⟨rfl, rfl, rfl, rfl, rfl, rfl, rfl⟩

/-- C7: Create requires `expired_days > 0` — a body carrying a non-positive
`expired_days` fails `LicenseCreate` validation (`Field(30, gt=0)`) and no
record is created — and (spec-modelled) an accepted request's record stores
`created = now` and `expired = now + expired_days` days, both round-tripping
through the timestamp format, with `expired` strictly after `created`. -/
theorem claim_C7 (genKey user plan machine : String) (items : List Json)
    (now : DateTime) (d : Nat) (hnow : ValidDT now)
    (hroom : (addDays d now).year ≤ 9999) (hd : 0 < d) :
    (∀ b : LicenseCreateBody, ∀ n : Int, b.expired_days = some (.num n) →
      n ≤ 0 → validateLicenseCreate b = none) ∧
    ∃ fs, (create_license genKey now d user plan machine items).2 = .obj fs ∧
      (create_license genKey now d user plan machine items).1 =
        items ++ [.obj fs] ∧
      lookupJ fs "created" = some (.str (formatDT now)) ∧
      lookupJ fs "expired" = some (.str (formatDT (addDays d now))) ∧
      parseDT (formatDT now) = some now ∧
      parseDT (formatDT (addDays d now)) = some (addDays d now) ∧
      now.toKey < (addDays d now).toKey := by
  constructor
  · intro b n hb hn
    cases hv : validateLicenseCreate b with
    | none => rfl
    | some v =>
      exfalso
      have hdays := (validateLicenseCreate_parts b v hv).2.2.2.2.2.2
      rw [hb] at hdays
      rw [show daysField (some (.num n)) =
        (if 0 < n then some n else none) from rfl] at hdays
      rw [if_neg (by omega)] at hdays
      cases hdays
  · refine ⟨[("license", .str genKey), ("user", .str user),
      ("plan", .str plan), ("machine", .str machine),
      ("created", .str (formatDT now)),
      ("expired", .str (formatDT (addDays d now)))],
      rfl, rfl, rfl, rfl, parseDT_formatDT now hnow,
      parseDT_formatDT (addDays d now)
        ⟨weakValid_addDays d now hnow.1, hroom⟩,
      toKey_lt_addDays d now hnow.1 hd⟩

/-- C7 at a concrete input: 2024-05-05 12:00:00 plus the default 30 days
round-trips through the format and is strictly later. -/
theorem claim_C7_witness :
    parseDT (formatDT (⟨2024, 5, 5, 12, 0, 0⟩ : DateTime)) =
      some ⟨2024, 5, 5, 12, 0, 0⟩ ∧
    parseDT (formatDT (addDays 30 ⟨2024, 5, 5, 12, 0, 0⟩)) =
      some (addDays 30 ⟨2024, 5, 5, 12, 0, 0⟩) ∧
    DateTime.toKey ⟨2024, 5, 5, 12, 0, 0⟩ <
      (addDays 30 ⟨2024, 5, 5, 12, 0, 0⟩).toKey := by
  obtain ⟨-, fs, -, -, -, -, h1, h2, h3⟩ :=
    claim_C7 "K" "u" "p" "m" [] ⟨2024, 5, 5, 12, 0, 0⟩ 30 (by decide)
      (by decide) (by decide)
  exact ⟨h1, h2, h3⟩

/-- C9: the HTTP Create body must supply `user`, `plan`, `machine`,
`created`, `expired` and `gist_id` — omitting any of them fails validation
and the endpoint answers with a validation error — yet an accepted request's
stored record carries `created` and `expired` recomputed from the clock
(spec-modelled `create_license`), and the document written is the one named
by the path parameter, whatever the body's `gist_id` says. -/
theorem claim_C9 (genKey : String) (now : DateTime) (path_gid : String)
    (b : LicenseCreateBody) (items : List Json) :
    (∀ v, validateLicenseCreate b = some v →
      b.user ≠ none ∧ b.plan ≠ none ∧ b.machine ≠ none ∧ b.created ≠ none ∧
        b.expired ≠ none ∧ b.gist_id ≠ none) ∧
    (validateLicenseCreate b = none →
      create_license_in_gist genKey now path_gid b items =
        .error ⟨422, "request body failed validation"⟩) ∧
    (∀ v, validateLicenseCreate b = some v →
      ∃ fs, create_license_in_gist genKey now path_gid b items =
          .ok (path_gid, items ++ [.obj fs], .obj fs) ∧
        lookupJ fs "created" = some (.str (formatDT now)) ∧
        lookupJ fs "expired" =
          some (.str (formatDT (addDays v.expired_days.toNat now)))) := by
  refine ⟨?_, ?_, ?_⟩
  · intro v hv
    have hp := validateLicenseCreate_parts b v hv
    refine ⟨?_, ?_, ?_, ?_, ?_, ?_⟩ <;> intro hN
    · have h1 := hp.1
      rw [hN] at h1
      cases h1
    · have h1 := hp.2.1
      rw [hN] at h1
      cases h1
    · have h1 := hp.2.2.1
      rw [hN] at h1
      cases h1
    · have h1 := hp.2.2.2.1
      rw [hN] at h1
      cases h1
    · have h1 := hp.2.2.2.2.1
      rw [hN] at h1
      cases h1
    · have h1 := hp.2.2.2.2.2.1
      rw [hN] at h1
      cases h1
  · intro hnone
    simp [create_license_in_gist, hnone]
  · intro v hv
    refine ⟨[("license", .str genKey), ("user", .str v.user),
      ("plan", .str v.plan), ("machine", .str v.machine),
      ("created", .str (formatDT now)),
      ("expired", .str (formatDT (addDays v.expired_days.toNat now)))],
      ?_, rfl, rfl⟩
    simp [create_license_in_gist, hv, create_license]

/-- C9 at a concrete input: a full body whose `created`, `expired` and
`gist_id` differ from what gets stored — the record's timestamps come from
the clock, and the path's gist ID is the one written. -/
theorem claim_C9_witness :
    ∃ fs, create_license_in_gist "K2" ⟨2024, 5, 5, 12, 0, 0⟩ "path-gist"
        ⟨some (.str "u"), some (.str "trial"), some (.str "m"),
          some (.str "1999-01-01 00:00:00"), some (.str "1999-01-02 00:00:00"),
          some (.str "body-gist"), none⟩ [] =
        .ok ("path-gist", [] ++ [.obj fs], .obj fs) ∧
      lookupJ fs "created" =
        some (.str (formatDT ⟨2024, 5, 5, 12, 0, 0⟩)) ∧
      lookupJ fs "expired" =
        some (.str (formatDT (addDays (Int.toNat 30) ⟨2024, 5, 5, 12, 0, 0⟩))) :=
  (claim_C9 "K2" ⟨2024, 5, 5, 12, 0, 0⟩ "path-gist"
      ⟨some (.str "u"), some (.str "trial"), some (.str "m"),
        some (.str "1999-01-01 00:00:00"), some (.str "1999-01-02 00:00:00"),
        some (.str "body-gist"), none⟩ []).2.2
    ⟨"u", "trial", "m", "1999-01-01 00:00:00", "1999-01-02 00:00:00",
      "body-gist", 30⟩ rfl

/-- Python raising inside an `Option`-typed pipeline: whatever the earlier
steps produced, a later step that is already `none` makes the chain `none`. -/
theorem option_bind_const_none {α β : Type} (x : Option α) :
    (x.bind fun _ => (none : Option β)) = none := by
  cases x <;> rfl

/-- An object element missing one of the response model's required fields
makes `LicenseResponse(**item)` raise, so the item constructor yields no
response. -/
theorem licenseRespOfItem_none_of_missing (now : DateTime)
    (gid gname : String) (fs : List (String × Json))
    (h : lookupJ fs "license" = none ∨ lookupJ fs "user" = none ∨
      lookupJ fs "plan" = none ∨ lookupJ fs "machine" = none ∨
      lookupJ fs "created" = none ∨ lookupJ fs "expired" = none) :
    licenseRespOfItem now gid gname fs = none := by
  unfold licenseRespOfItem
  split_ifs with hdup
  · rfl
  · rcases h with h | h | h | h | h | h <;>
      simp [h, Option.none_bind, option_bind_const_none]

/-- A document containing an object element whose response construction
raises aborts the whole listing with a 500. -/
theorem goLicenses_error_of_bad (now : DateTime) (gname gid : String)
    (items : List Json) (fs : List (String × Json))
    (hmem : Json.obj fs ∈ items)
    (hbad : licenseRespOfItem now gid gname fs = none) :
    ∃ dtl, goLicenses now gname gid items = .error ⟨500, dtl⟩ := by
  induction items with
  | nil => cases hmem
  | cons it rest ih =>
    rcases List.mem_cons.mp hmem with heq | hrest
    · subst heq
      exact ⟨validationErrDetail, by simp [goLicenses, hbad]⟩
    · obtain ⟨dtl, hdtl⟩ := ih hrest
      cases it with
      | obj fs2 =>
        cases hr : licenseRespOfItem now gid gname fs2 with
        | none => exact ⟨validationErrDetail, by simp [goLicenses, hr]⟩
        | some r => exact ⟨dtl, by simp [goLicenses, hr, hdtl]⟩
      | null => exact ⟨dtl, by simpa [goLicenses] using hdtl⟩
      | bool b => exact ⟨dtl, by simpa [goLicenses] using hdtl⟩
      | num n => exact ⟨dtl, by simpa [goLicenses] using hdtl⟩
      | str s => exact ⟨dtl, by simpa [goLicenses] using hdtl⟩
      | arr xs => exact ⟨dtl, by simpa [goLicenses] using hdtl⟩

/-- C10: List does not skip malformed object elements — when any object
element of the array lacks one of the response model's required fields
(`license`, `user`, `plan`, `machine`, `created` or `expired`), the whole
operation fails with a generic server error (the pydantic `ValidationError`
falls into the blanket `except Exception` of `src/main.py` lines 194-195),
rather than returning the remaining well-formed records. -/
theorem claim_C10 (now : DateTime) (gname gid : String) (items : List Json)
    (fs : List (String × Json)) (hmem : Json.obj fs ∈ items)
    (hmiss : lookupJ fs "license" = none ∨ lookupJ fs "user" = none ∨
      lookupJ fs "plan" = none ∨ lookupJ fs "machine" = none ∨
      lookupJ fs "created" = none ∨ lookupJ fs "expired" = none) :
    ∃ dtl, list_licenses_in_gist now gname gid (.arr items) =
      .error ⟨500, dtl⟩ :=
  goLicenses_error_of_bad now gname gid items fs hmem
    (licenseRespOfItem_none_of_missing now gid gname fs hmiss)

/-- C10 at a concrete input: a document whose single element is an object
carrying only a `license` key makes the whole listing fail with a 500. -/
theorem claim_C10_witness :
    ∃ dtl, list_licenses_in_gist ⟨2024, 5, 5, 12, 0, 0⟩ "data.json" "g1"
      (.arr [.obj [("license", .str "K1")]]) = .error ⟨500, dtl⟩ :=
  claim_C10 ⟨2024, 5, 5, 12, 0, 0⟩ "data.json" "g1"
    [.obj [("license", .str "K1")]] [("license", .str "K1")]
    (List.mem_singleton.mpr rfl) (Or.inr (Or.inl rfl))
